import Mathlib

/-!
Verification of the OID-namespace extraction engine of python-rhsm
(`src/rhsm/certificate2.py`) against its specification.

The core under verification is `certificate2.py`: the certificate factory,
version parsing, certificate-type classification, and the Product / Order /
Content builders.  Its collaborators (`Extensions`, `OID`, `DateRange`,
`parse_tags` from `rhsm.certificate`, and `safe_int` from `rhsm.connection`)
are not part of the sources under verification; they are modelled from the
specification's description of the Extension Tree, Identifier, date-range and
lenient-integer components, and each such definition is marked
`Modelled from the spec:` in its doc comment.

Machine-level conventions of the embedding:
* Python exceptions become an `Except PyError` result; the distinct runtime
  exception classes (`CertificateException`, `ValueError`, `NameError`) are
  the constructors of `PyError`.
* Python heterogeneous values that can flow into the `Content` enabled flag
  (`None`, ints, strings, booleans) are the constructors of `PyVal`, with
  Python's `==` semantics (`True == 1`, `False == 0`) given by `pyEq`.
* Python's `int(str)` conversion (optional surrounding whitespace, optional
  sign, decimal digits) is `pyIntOfChars`; Python's `str.split(".")` is
  `splitDot`.
* Timestamps are modelled as integers (seconds); the date-range validity
  helper is a closed-interval test, per the spec's "validity is date-range
  only".
-/

namespace Rhsm

/-- The Python exception kinds that `certificate2.py` can surface:
`CertificateException` (raised explicitly for an invalid enabled flag),
`ValueError` (raised by `int()` on a non-numeric string), and `NameError`
(raised when evaluating an unbound name, as `return cert` on line 73 does). -/
inductive PyError
  | certificateException (msg : String)
  | valueError (msg : String)
  | nameError (msg : String)
  deriving Repr, DecidableEq

/-- Modelled from the spec: an Identifier is an ordered sequence of
non-negative integer segments (spec section 3); the dotted-string and the
segment-sequence forms are interchangeable, and we work with the latter. -/
abbrev OID := List Nat

/-- Modelled from the spec: `rtrim(n)` returns a new Identifier with `n`
segments removed from the end (spec section 4.1). -/
def oidRtrim (oid : OID) (n : Nat) : OID :=
  oid.take (oid.length - n)

/-- Modelled from the spec: a pattern is a sequence of segment matchers, each
either a literal non-negative integer or a wildcard marker (spec section 4.1). -/
inductive Seg
  | lit (n : Nat)
  | wild
  deriving Repr, DecidableEq

/-- One segment matcher against one concrete segment. -/
def segMatch : Seg → Nat → Bool
  | Seg.lit m, n => m == n
  | Seg.wild, _ => true

/-- Modelled from the spec: pattern length must equal candidate identifier
length for a match; matching is a pure segment-wise comparison
(spec section 4.1). -/
def oidMatch (pat : List Seg) (oid : OID) : Bool :=
  pat.length == oid.length && (pat.zip oid).all (fun p => segMatch p.1 p.2)

/-- Modelled from the spec: an Extension Tree is a mapping from Identifier to
string value built from a certificate's raw extension fields; `find` returns
entries in insertion order of the underlying collection, so the tree is kept
as an ordered association list (spec sections 3 and 4.2). -/
structure Extensions where
  entries : List (OID × String)
  deriving Repr, DecidableEq

/-- Modelled from the spec: size/length reflects entry count (spec 4.2). -/
def Extensions.size (e : Extensions) : Nat :=
  e.entries.length

/-- Modelled from the spec: membership test by exact Identifier (spec 4.2). -/
def Extensions.containsOid (e : Extensions) (p : OID) : Bool :=
  e.entries.any (fun kv => kv.1 == p)

/-- Modelled from the spec: `get` looks a path up; absence is converted to
`None` at the builder boundary, so the model returns an option (spec 4.2). -/
def Extensions.get (e : Extensions) (p : OID) : Option String :=
  (e.entries.find? (fun kv => kv.1 == p)).map (fun kv => kv.2)

/-- Modelled from the spec: `ltrim(n)` keeps every entry whose identifier has
length greater than `n`, re-keyed by dropping the first `n` segments
(spec 4.2). -/
def Extensions.ltrimTree (e : Extensions) (n : Nat) : Extensions :=
  ⟨e.entries.filterMap (fun kv =>
    if n < kv.1.length then some (kv.1.drop n, kv.2) else none)⟩

/-- Modelled from the spec: `branch(p)` returns a new tree containing, for
every entry whose identifier starts with `p`, the entry re-keyed by the
remaining suffix (spec 4.2). -/
def Extensions.branch (e : Extensions) (p : OID) : Extensions :=
  ⟨e.entries.filterMap (fun kv =>
    if p.isPrefixOf kv.1 then some (kv.1.drop p.length, kv.2) else none)⟩

/-- Modelled from the spec: `find(pattern)` returns every
(matched identifier, value) entry whose identifier matches the pattern, in
insertion order (spec 4.2). -/
def Extensions.find (e : Extensions) (pat : List Seg) : List (OID × String) :=
  e.entries.filter (fun kv => oidMatch pat kv.1)

/-- The Python values that can reach the `Content` enabled flag:
`None`, an int, a string, or a boolean. -/
inductive PyVal
  | noneV
  | intV (n : Int)
  | strV (s : String)
  | boolV (b : Bool)
  deriving Repr, DecidableEq

/-- Python `==` on `PyVal`: booleans compare equal to the integers 0/1
(`True == 1`, `False == 0`); values of unrelated types compare unequal. -/
def pyEq : PyVal → PyVal → Bool
  | PyVal.noneV, PyVal.noneV => true
  | PyVal.intV m, PyVal.intV n => m == n
  | PyVal.strV a, PyVal.strV b => a == b
  | PyVal.boolV a, PyVal.boolV b => a == b
  | PyVal.boolV a, PyVal.intV n => (if a then (1 : Int) else 0) == n
  | PyVal.intV n, PyVal.boolV a => n == (if a then (1 : Int) else 0)
  | _, _ => false

/-- Drop leading and trailing whitespace characters, as Python's `int()`
does before parsing. -/
def trimWs (cs : List Char) : List Char :=
  ((cs.dropWhile Char.isWhitespace).reverse.dropWhile Char.isWhitespace).reverse

/-- A non-empty all-digit character list read as a natural number. -/
def digitsToNat : List Char → Option Nat
  | ds =>
    if ds ≠ [] ∧ ds.all Char.isDigit then
      some (ds.foldl (fun a c => a * 10 + (c.toNat - 48)) 0)
    else
      none

/-- Python's `int(s)` for a string: optional surrounding whitespace, an
optional single sign, then one or more decimal digits; anything else raises
`ValueError` (here: `none`). -/
def pyIntOfChars (cs : List Char) : Option Int :=
  match trimWs cs with
  | '-' :: ds => (digitsToNat ds).map (fun n => -(n : Int))
  | '+' :: ds => (digitsToNat ds).map (fun n => (n : Int))
  | ds => (digitsToNat ds).map (fun n => (n : Int))

/-- Python's `s.split(".")`: split on every dot, keeping empty pieces, so the
result is always non-empty (splitting the empty string yields one empty
piece). -/
def splitDot : List Char → List (List Char)
  | [] => [[]]
  | c :: rest =>
    if c = '.' then [] :: splitDot rest
    else
      match splitDot rest with
      | [] => [[c]]
      | h :: t => (c :: h) :: t

/-- Sequence a fallible function over a list, stopping at the first error —
the shape of a Python `for` loop whose body may raise. -/
def mapExcept (f : α → Except PyError β) : List α → Except PyError (List β)
  | [] => Except.ok []
  | a :: as =>
    match f a with
    | Except.error e => Except.error e
    | Except.ok b =>
      match mapExcept f as with
      | Except.error e => Except.error e
      | Except.ok bs => Except.ok (b :: bs)

/-- Whether a fallible computation succeeded. -/
def isOkE : Except PyError α → Bool
  | Except.ok _ => true
  | Except.error _ => false

/-- Modelled from the spec: `safe_int` from `rhsm.connection` converts the
order quantity field to an integer, yielding `None` both on absence and on
non-numeric garbage instead of raising (spec sections 4.4 and 9). -/
def safeInt : Option String → Option Int
  | Option.none => Option.none
  | Option.some s => pyIntOfChars s.toList

/-- Modelled from the spec: `parse_tags` from `rhsm.certificate` parses a
comma-delimited value into a list of trimmed substrings, empty if the value
is absent (spec sections 3 and 4.4). -/
def parseTags : Option String → List String
  | Option.none => []
  | Option.some s => if s = "" then [] else (s.splitOn ",").map String.trim

/-- `Version` from `certificate2.py`: the original string, the list of
integer segments, and the derived major/minor components. -/
structure Version where
  version_str : String
  segments : List Int
  major : Int
  minor : Int
  deriving Repr, DecidableEq

/-- One dot-separated component through Python's `int()`, raising
`ValueError` on failure — the loop body of `Version.__init__`. -/
def segToInt (c : List Char) : Except PyError Int :=
  match pyIntOfChars c with
  | Option.some n => Except.ok n
  | Option.none => Except.error (PyError.valueError (String.mk c))

/-- `Version.__init__`: split the version string on dots, convert every
component with `int()` (the first bad component raises `ValueError`), then
set `major` to the first segment and `minor` to the second segment or 0.
The empty-segments branch is unreachable because splitting always yields at
least one piece. -/
def versionInit (version_str : String) : Except PyError Version :=
  match mapExcept segToInt (splitDot version_str.toList) with
  | Except.error e => Except.error e
  | Except.ok [] => Except.error (PyError.valueError "unreachable")
  | Except.ok (mj :: rest) =>
    Except.ok { version_str := version_str, segments := mj :: rest,
                major := mj, minor := rest.headD 0 }

/-- Constant `PRODUCT_CERT` from `certificate2.py`. -/
def PRODUCT_CERT : Nat := 1

/-- Constant `ENTITLEMENT_CERT` from `certificate2.py`. -/
def ENTITLEMENT_CERT : Nat := 2

/-- Constant `IDENTITY_CERT` from `certificate2.py`. -/
def IDENTITY_CERT : Nat := 3

/-- Constant `ORDER_NAMESPACE = "4"` from `certificate2.py`, as an
identifier. -/
def ORDER_NAMESPACE : OID := [4]

/-- Constant `EXT_ORDER_NAME = "4.1"` from `certificate2.py`, as an
identifier. -/
def EXT_ORDER_NAME : OID := [4, 1]

/-- Constant `EXT_CERT_VERSION = "6"` from `certificate2.py`, as an
identifier. -/
def EXT_CERT_VERSION : OID := [6]

/-- The standard x509 fields the factory reads from the raw certificate
handle (out of scope of the core): serial, not-before/not-after timestamps,
optional alternate name, subject attribute pairs.  Timestamps are integers. -/
structure X509Info where
  serial : Int
  start : Int
  end_ : Int
  altName : Option String
  subject : List (String × String)
  deriving Repr, DecidableEq

/-- `Product` from `certificate2.py`: id (the matched wildcard segment),
name, version, arch, provided tags (empty list if absent). -/
structure Product where
  id : Nat
  name : Option String
  version : Option String
  arch : Option String
  provided_tags : List String
  deriving Repr, DecidableEq

/-- `Order` from `certificate2.py`: all fields optional; quantity is the one
integer-converted field. -/
structure Order where
  name : Option String
  number : Option String
  sku : Option String
  subscription : Option String
  quantity : Option Int
  virt_limit : Option String
  socket_limit : Option String
  contract_number : Option String
  quantity_used : Option String
  warning_period : Option String
  account_number : Option String
  provides_management : Option String
  support_level : Option String
  support_type : Option String
  stacking_id : Option String
  virt_only : Option String
  deriving Repr, DecidableEq

/-- `Content` from `certificate2.py` after a successful `__init__`. -/
structure Content where
  name : Option String
  label : Option String
  vendor : Option String
  url : Option String
  gpg : Option String
  enabled : Bool
  metadata_expire : Option String
  required_tags : List String
  quantity : Option Int
  flex_quantity : Option Int
  deriving Repr, DecidableEq

/-- The membership test `enabled in (None, 0, 1, "0", "1")` from
`Content.__init__` (line 416), element-wise Python `==`. -/
def enabledValid (v : PyVal) : Bool :=
  pyEq v PyVal.noneV || pyEq v (PyVal.intV 0) || pyEq v (PyVal.intV 1) ||
    pyEq v (PyVal.strV "0") || pyEq v (PyVal.strV "1")

/-- The decode `True if (enabled is None or enabled == "1" or
enabled == True) else False` from `Content.__init__` (lines 421-423);
`is None` is a constructor test, the two `==` are Python equality. -/
def enabledDecode (v : PyVal) : Bool :=
  (match v with | PyVal.noneV => true | _ => false) ||
    pyEq v (PyVal.strV "1") || pyEq v (PyVal.boolV true)

/-- The conversion `int(quantity) if quantity else None` from
`Content.__init__` (lines 429-430): a falsy value (`None` or the empty
string) yields `None`; a non-empty string goes through `int()`, which raises
`ValueError` on a non-numeric value. -/
def intIfTruthy : Option String → Except PyError (Option Int)
  | Option.none => Except.ok Option.none
  | Option.some s =>
    if s.isEmpty then Except.ok Option.none
    else
      match pyIntOfChars s.toList with
      | Option.some n => Except.ok (Option.some n)
      | Option.none => Except.error (PyError.valueError s)

/-- `Content.__init__` from `certificate2.py`: validate and decode the
enabled flag first (lines 416-423, raising `CertificateException` on an
invalid value), default `required_tags` to the empty list, then convert
quantity and flex_quantity with `int()` (lines 429-430). -/
def contentInit (name label quantity flex_quantity vendor url gpg : Option String)
    (enabled : PyVal) (metadata_expire : Option String)
    (required_tags : Option (List String)) : Except PyError Content :=
  if enabledValid enabled = false then
    Except.error (PyError.certificateException "Invalid enabled setting")
  else
    match intIfTruthy quantity with
    | Except.error e => Except.error e
    | Except.ok q =>
      match intIfTruthy flex_quantity with
      | Except.error e => Except.error e
      | Except.ok fq =>
        Except.ok { name := name, label := label, vendor := vendor,
                    url := url, gpg := gpg,
                    enabled := enabledDecode enabled,
                    metadata_expire := metadata_expire,
                    required_tags := required_tags.getD [],
                    quantity := q, flex_quantity := fq }

/-- The common certificate core (`Certificate.__init__`): version as sent by
the server (absent for identity certificates), serial, validity start/end. -/
structure CertBase where
  version : Option Version
  serial : Int
  start : Int
  end_ : Int
  deriving Repr, DecidableEq

/-- Modelled from the spec: `DateRange.has_date` from `rhsm.certificate` —
validity is date-range only, and a date inside the closed start/end interval
is in range (spec sections 1 and 8). -/
def dateRangeHasDate (s e d : Int) : Bool :=
  decide (s ≤ d) && decide (d ≤ e)

/-- `Certificate.is_valid(on_date)`: delegate to the validity range's
`has_date` at the given date. -/
def CertBase.isValidOn (c : CertBase) (onDate : Int) : Bool :=
  dateRangeHasDate c.start c.end_ onDate

/-- `Certificate.is_expired(on_date)`: the range's end is strictly before
the given date. -/
def CertBase.isExpiredOn (c : CertBase) (onDate : Int) : Bool :=
  decide (c.end_ < onDate)

/-- The certificate variants the factory can build for major version 1. -/
inductive Cert
  | identity (base : CertBase) (altName : Option String)
      (subject : List (String × String))
  | product1 (base : CertBase) (products : List Product)
  | entitlement1 (base : CertBase) (products : List Product) (order : Order)
      (content : List Content)
  deriving Repr, DecidableEq

/-- `CertFactory._get_cert_type` (lines 217-224): an empty tree means an
identity certificate; otherwise presence of the order name path means an
entitlement certificate; otherwise a product certificate. -/
def getCertType (ext : Extensions) : Nat :=
  if ext.size == 0 then IDENTITY_CERT
  else if ext.containsOid EXT_ORDER_NAME then ENTITLEMENT_CERT
  else PRODUCT_CERT

/-- `CertFactory.__parse_v1_products` (lines 155-173): one `Product` per
match of the pattern `1.*.1`, in the order the matches are found; each
match's identifier right-trimmed by one segment is the product's branch
root, the second segment is the product id, and fields are read at relative
paths 1-4. -/
def parseV1Products (ext : Extensions) : List Product :=
  (ext.find [Seg.lit 1, Seg.wild, Seg.lit 1]).map (fun m =>
    let oid := m.1
    let root := oidRtrim oid 1
    let e := ext.branch root
    { id := oid.getD 1 0,
      name := e.get [1],
      version := e.get [2],
      arch := e.get [3],
      provided_tags := parseTags (e.get [4]) })

/-- `CertFactory.__parse_v1_order` (lines 175-195): branch into the fixed
order namespace and read the fixed relative paths, with quantity through
`safe_int`. -/
def parseV1Order (ext : Extensions) : Order :=
  let o := ext.branch ORDER_NAMESPACE
  { name := o.get [1],
    number := o.get [2],
    sku := o.get [3],
    subscription := o.get [4],
    quantity := safeInt (o.get [5]),
    virt_limit := o.get [8],
    socket_limit := o.get [9],
    contract_number := o.get [10],
    quantity_used := o.get [11],
    warning_period := o.get [12],
    account_number := o.get [13],
    provides_management := o.get [14],
    support_level := o.get [15],
    support_type := o.get [16],
    stacking_id := o.get [17],
    virt_only := o.get [18] }

/-- The enabled-flag value handed to `Content.__init__` by the factory:
`content_ext.get('8')` yields `None` or a string. -/
def optToPyVal : Option String → PyVal
  | Option.none => PyVal.noneV
  | Option.some s => PyVal.strV s

/-- `CertFactory.__parse_v1_content` (lines 197-215): one `Content` per
match of the pattern `2.*.1.1`; each match's identifier right-trimmed by one
segment is the content branch root and fields are read at relative paths
1-10; a `Content.__init__` failure aborts the whole list. -/
def parseV1Content (ext : Extensions) : Except PyError (List Content) :=
  mapExcept (fun m =>
    let ce := ext.branch (oidRtrim m.1 1)
    contentInit (ce.get [1]) (ce.get [2]) (ce.get [3]) (ce.get [4])
      (ce.get [5]) (ce.get [6]) (ce.get [7]) (optToPyVal (ce.get [8]))
      (ce.get [9]) (Option.some (parseTags (ce.get [10]))))
    (ext.find [Seg.lit 2, Seg.wild, Seg.lit 1, Seg.lit 1])

/-- `CertFactory.__create_identity_cert` (lines 112-122): no version is
passed to the base class. -/
def createIdentityCert (info : X509Info) : Cert :=
  Cert.identity
    { version := Option.none, serial := info.serial, start := info.start,
      end_ := info.end_ }
    info.altName info.subject

/-- `CertFactory.__create_v1_prod_cert` (lines 124-135). -/
def createV1ProdCert (version : Version) (ext : Extensions) (info : X509Info) :
    Cert :=
  Cert.product1
    { version := Option.some version, serial := info.serial,
      start := info.start, end_ := info.end_ }
    (parseV1Products ext)

/-- `CertFactory.__create_v1_ent_cert` (lines 137-153). -/
def createV1EntCert (version : Version) (ext : Extensions) (info : X509Info) :
    Except PyError Cert := do
  let order := parseV1Order ext
  let content ← parseV1Content ext
  let products := parseV1Products ext
  pure (Cert.entitlement1
    { version := Option.some version, serial := info.serial,
      start := info.start, end_ := info.end_ }
    products order content)

/-- `CertFactory.__create_v1_cert` (lines 75-84): dispatch on
`_get_cert_type`. -/
def createV1Cert (version : Version) (ext : Extensions) (info : X509Info) :
    Except PyError Cert :=
  let t := getCertType ext
  if t == IDENTITY_CERT then Except.ok (createIdentityCert info)
  else if t == ENTITLEMENT_CERT then createV1EntCert version ext info
  else Except.ok (createV1ProdCert version ext info)

/-- `CertFactory.create_from_pem` (lines 54-73), from the point where the
extension tree has been trimmed to the vendor namespace: read the version
field at path `6` (defaulting to `"1.0"` when absent), parse it, and
dispatch to the version-1 builder when the major version is 1.  For any
other major version the function body is `return cert` (line 73) where
`cert` is an unbound name, so Python raises `NameError` at that point. -/
def createFromTrimmed (ext : Extensions) (info : X509Info) :
    Except PyError Cert :=
  let certVersionStr :=
    if ext.containsOid EXT_CERT_VERSION then
      (ext.get EXT_CERT_VERSION).getD "1.0"
    else "1.0"
  match versionInit certVersionStr with
  | Except.error e => Except.error e
  | Except.ok version =>
    if version.major == 1 then createV1Cert version ext info
    else Except.error (PyError.nameError "cert")

/-- `Content.__init__` applied with only the enabled flag varying, every
other argument absent — the instrument for the enabled-flag claims. -/
def contentWithEnabled (v : PyVal) : Except PyError Content :=
  contentInit Option.none Option.none Option.none Option.none Option.none
    Option.none Option.none v Option.none Option.none

/-- `Content.__init__` applied with only the quantity argument varying. -/
def contentWithQuantity (q : Option String) : Except PyError Content :=
  contentInit Option.none Option.none q Option.none Option.none
    Option.none Option.none PyVal.noneV Option.none Option.none

/-- `Content.__init__` applied with only the flex_quantity argument
varying. -/
def contentWithFlex (fq : Option String) : Except PyError Content :=
  contentInit Option.none Option.none Option.none fq Option.none
    Option.none Option.none PyVal.noneV Option.none Option.none

/-! ### Shared lemmas about the embedding -/

theorem splitDot_ne_nil (cs : List Char) : splitDot cs ≠ [] := by
  induction cs with
  | nil => simp [splitDot]
  | cons c rest ih =>
    simp only [splitDot]
    split
    · simp
    · cases h : splitDot rest with
      | nil => exact absurd h ih
      | cons a t => simp

theorem mapExcept_isOk (f : α → Except PyError β) (l : List α) :
    isOkE (mapExcept f l) = l.all (fun a => isOkE (f a)) := by
  induction l with
  | nil => rfl
  | cons a as ih =>
    rw [List.all_cons, ← ih]
    cases hfa : f a with
    | error e => simp [mapExcept, hfa, isOkE]
    | ok b =>
      cases hrec : mapExcept f as with
      | error e => simp [mapExcept, hfa, hrec, isOkE]
      | ok bs => simp [mapExcept, hfa, hrec, isOkE]

theorem mapExcept_cons_ok (f : α → Except PyError β) (a : α) (as : List α)
    (bs : List β) (h : mapExcept f (a :: as) = Except.ok bs) :
    ∃ b bs', f a = Except.ok b ∧ mapExcept f as = Except.ok bs' ∧
      bs = b :: bs' := by
  cases hfa : f a with
  | error e => simp [mapExcept, hfa] at h
  | ok b =>
    cases hrec : mapExcept f as with
    | error e => simp [mapExcept, hfa, hrec] at h
    | ok bs' =>
      simp only [mapExcept, hfa, hrec, Except.ok.injEq] at h
      exact ⟨b, bs', rfl, rfl, h.symm⟩

theorem segToInt_isOk (c : List Char) :
    isOkE (segToInt c) = (pyIntOfChars c).isSome := by
  cases h : pyIntOfChars c <;> simp [segToInt, h, isOkE]

/-! ### The claims -/

/-- Claim C1: for every trimmed extension tree presented to the factory
(major version 1), certificate-type classification follows the exact
precedence — zero entries gives IDENTITY; otherwise presence of the
order-name path `4.1` gives ENTITLEMENT; otherwise PRODUCT. -/
theorem cert_type_precedence (ext : Extensions) :
    (ext.size = 0 → getCertType ext = IDENTITY_CERT) ∧
    (ext.size ≠ 0 → ext.containsOid EXT_ORDER_NAME = true →
      getCertType ext = ENTITLEMENT_CERT) ∧
    (ext.size ≠ 0 → ext.containsOid EXT_ORDER_NAME = false →
      getCertType ext = PRODUCT_CERT) := by
  refine ⟨fun h => ?_, fun h1 h2 => ?_, fun h1 h2 => ?_⟩ <;>
    simp [getCertType, *]

/-- Concrete instances of `cert_type_precedence`: the empty tree, a tree
holding the order name, and a tree holding only one product name. -/
theorem cert_type_precedence_witness :
    getCertType ⟨[]⟩ = IDENTITY_CERT ∧
    getCertType ⟨[([4, 1], "Awesome OS")]⟩ = ENTITLEMENT_CERT ∧
    getCertType ⟨[([1, 1, 1], "Awesome OS")]⟩ = PRODUCT_CERT :=
  ⟨(cert_type_precedence ⟨[]⟩).1 (by decide),
   (cert_type_precedence ⟨[([4, 1], "Awesome OS")]⟩).2.1 (by decide) (by decide),
   (cert_type_precedence ⟨[([1, 1, 1], "Awesome OS")]⟩).2.2 (by decide) (by decide)⟩

/-- Claim C2: on a certificate whose parsed major version is not 1 — here a
tree carrying version `"2.0"` — `create_from_pem` does not surface a typed
UnsupportedVersion failure: its body `return cert` (line 73) evaluates the
unbound name `cert`, so the call dies with a `NameError`. -/
theorem unsupported_major_yields_name_error :
    createFromTrimmed ⟨[([6], "2.0")]⟩ ⟨0, 0, 0, Option.none, []⟩ =
      Except.error (PyError.nameError "cert") := rfl

/-- Claim C8: order extraction converts the quantity field leniently via
`safe_int` — a numeric string gives the integer, a non-numeric string gives
`None` without raising, and an absent field gives `None`. -/
theorem order_quantity_lenient (ext : Extensions) :
    (parseV1Order ext).quantity = safeInt ((ext.branch ORDER_NAMESPACE).get [5]) ∧
    safeInt (Option.some "5") = Option.some 5 ∧
    safeInt (Option.some "abc") = Option.none ∧
    safeInt Option.none = Option.none ∧
    (parseV1Order ⟨[]⟩).quantity = Option.none ∧
    (parseV1Order ⟨[]⟩).name = Option.none :=
  ⟨rfl, rfl, rfl, rfl, rfl, rfl⟩

/-- Claim C9: `is_valid(T)` holds exactly when T lies in the closed interval
[start, end], and `is_expired(T)` holds exactly when end is strictly before
T; in particular start = T-1day, end = T+1day is valid and not expired at T,
and end = T-1day is expired at T (one day = 86400 seconds). -/
theorem validity_window (c : CertBase) (t : Int) :
    (c.isValidOn t = true ↔ c.start ≤ t ∧ t ≤ c.end_) ∧
    (c.isExpiredOn t = true ↔ c.end_ < t) ∧
    CertBase.isValidOn ⟨Option.none, 0, t - 86400, t + 86400⟩ t = true ∧
    CertBase.isExpiredOn ⟨Option.none, 0, t - 86400, t + 86400⟩ t = false ∧
    CertBase.isExpiredOn ⟨Option.none, 0, t - 172800, t - 86400⟩ t = true := by
  refine ⟨?_, ?_, ?_, ?_, ?_⟩ <;>
    simp [CertBase.isValidOn, CertBase.isExpiredOn, dateRangeHasDate]

/-- Claim C3: the enabled flag of a `Content` decodes as — absent (`None`),
the string `"1"`, the integer 1 or boolean true give `enabled = true`; the
string `"0"`, the integer 0 or boolean false give `enabled = false`; any
other value makes construction raise `CertificateException`, aborting the
build. -/
theorem content_enabled_rules (v : PyVal) :
    ((v = PyVal.noneV ∨ v = PyVal.strV "1" ∨ v = PyVal.intV 1 ∨
        v = PyVal.boolV true) →
      ∃ c, contentWithEnabled v = Except.ok c ∧ c.enabled = true) ∧
    ((v = PyVal.strV "0" ∨ v = PyVal.intV 0 ∨ v = PyVal.boolV false) →
      ∃ c, contentWithEnabled v = Except.ok c ∧ c.enabled = false) ∧
    ((v ≠ PyVal.noneV ∧ v ≠ PyVal.strV "1" ∧ v ≠ PyVal.intV 1 ∧
        v ≠ PyVal.boolV true ∧ v ≠ PyVal.strV "0" ∧ v ≠ PyVal.intV 0 ∧
        v ≠ PyVal.boolV false) →
      ∃ m, contentWithEnabled v = Except.error (PyError.certificateException m)) := by
  refine ⟨?_, ?_, ?_⟩
  · rintro (rfl | rfl | rfl | rfl) <;> exact ⟨_, rfl, rfl⟩
  · rintro (rfl | rfl | rfl) <;> exact ⟨_, rfl, rfl⟩
  · rintro ⟨h1, h2, h3, h4, h5, h6, h7⟩
    refine ⟨"Invalid enabled setting", ?_⟩
    cases v with
    | noneV => exact absurd rfl h1
    | intV n =>
      have hn1 : n ≠ 1 := fun hn => h3 (by rw [hn])
      have hn0 : n ≠ 0 := fun hn => h6 (by rw [hn])
      simp [contentWithEnabled, contentInit, enabledValid, pyEq, hn0, hn1]
    | strV s =>
      have hs1 : s ≠ "1" := fun hs => h2 (by rw [hs])
      have hs0 : s ≠ "0" := fun hs => h5 (by rw [hs])
      simp [contentWithEnabled, contentInit, enabledValid, pyEq, hs0, hs1]
    | boolV b =>
      cases b with
      | true => exact absurd rfl h4
      | false => exact absurd rfl h7

/-- Concrete instances of `content_enabled_rules`: absent gives enabled,
`"0"` gives disabled, `"maybe"` raises. -/
theorem content_enabled_rules_witness :
    (∃ c, contentWithEnabled PyVal.noneV = Except.ok c ∧ c.enabled = true) ∧
    (∃ c, contentWithEnabled (PyVal.strV "0") = Except.ok c ∧
      c.enabled = false) ∧
    (∃ m, contentWithEnabled (PyVal.strV "maybe") =
      Except.error (PyError.certificateException m)) :=
  ⟨(content_enabled_rules PyVal.noneV).1 (Or.inl rfl),
   (content_enabled_rules (PyVal.strV "0")).2.1 (Or.inl rfl),
   (content_enabled_rules (PyVal.strV "maybe")).2.2 (by decide)⟩

/-- Claim C4: product extraction yields one `Product` per match of the
pattern `1.*.1`, in match order; each product's branch root is the matched
identifier minus its last segment, its id is the wildcard (second) segment,
and name/version/arch/provided-tags come from relative paths 1-4 of that
branch. -/
theorem products_extraction (ext : Extensions) :
    parseV1Products ext =
      (ext.entries.filter (fun kv =>
          oidMatch [Seg.lit 1, Seg.wild, Seg.lit 1] kv.1)).map (fun kv =>
        { id := kv.1.getD 1 0,
          name := (ext.branch (kv.1.take (kv.1.length - 1))).get [1],
          version := (ext.branch (kv.1.take (kv.1.length - 1))).get [2],
          arch := (ext.branch (kv.1.take (kv.1.length - 1))).get [3],
          provided_tags :=
            parseTags ((ext.branch (kv.1.take (kv.1.length - 1))).get [4]) }) :=
  rfl

/-- Claim C5: content extraction yields one `Content` per match of the
pattern `2.*.1.1`, in match order; each entry's branch root is the matched
identifier minus its last segment, and relative paths 1-10 of that branch
supply name, label, quantity, flex_quantity, vendor, url, gpg, enabled,
metadata_expire and required_tags, through `Content.__init__`. -/
theorem content_extraction (ext : Extensions) :
    parseV1Content ext =
      mapExcept (fun kv =>
        contentInit
          ((ext.branch (kv.1.take (kv.1.length - 1))).get [1])
          ((ext.branch (kv.1.take (kv.1.length - 1))).get [2])
          ((ext.branch (kv.1.take (kv.1.length - 1))).get [3])
          ((ext.branch (kv.1.take (kv.1.length - 1))).get [4])
          ((ext.branch (kv.1.take (kv.1.length - 1))).get [5])
          ((ext.branch (kv.1.take (kv.1.length - 1))).get [6])
          ((ext.branch (kv.1.take (kv.1.length - 1))).get [7])
          (optToPyVal ((ext.branch (kv.1.take (kv.1.length - 1))).get [8]))
          ((ext.branch (kv.1.take (kv.1.length - 1))).get [9])
          (Option.some
            (parseTags ((ext.branch (kv.1.take (kv.1.length - 1))).get [10]))))
        (ext.entries.filter (fun kv =>
          oidMatch [Seg.lit 2, Seg.wild, Seg.lit 1, Seg.lit 1] kv.1)) :=
  rfl

/-- Counterexample to claim C6: the component `-1` is not a non-negative
integer, yet `Version.__init__` accepts it — Python's `int()` parses signed
literals — producing major = -1 instead of failing. -/
theorem version_negative_component_accepted :
    versionInit "-1.2" =
      Except.ok { version_str := "-1.2", segments := [-1, 2],
                  major := -1, minor := 2 } := rfl

/-- Claim C6 as amended: constructing a `Version` from s succeeds exactly
when every dot-separated component of s is a valid Python integer literal
(optional surrounding whitespace, optional sign, at least one digit) — so
it fails for the empty string, whose single component is empty, and
succeeds also on negative components. -/
theorem version_parse_iff (s : String) :
    isOkE (versionInit s) =
      (splitDot s.toList).all (fun c => (pyIntOfChars c).isSome) := by
  have key := mapExcept_isOk segToInt (splitDot s.toList)
  simp only [segToInt_isOk] at key
  rw [← key]
  unfold versionInit
  cases h : mapExcept segToInt (splitDot s.toList) with
  | error e => simp [isOkE]
  | ok segs =>
    cases segs with
    | nil =>
      obtain ⟨c, cs, hsplit⟩ :=
        List.exists_cons_of_ne_nil (splitDot_ne_nil s.toList)
      rw [hsplit] at h
      obtain ⟨b, bs', _, _, hcons⟩ := mapExcept_cons_ok _ _ _ _ h
      exact absurd hcons.symm (List.cons_ne_nil b bs')
    | cons mj rest => simp [isOkE]

/-- Claim C7: for every successfully parsed version, major is the integer
value of the first dot-separated component and minor is the value of the
second component, or 0 when there is only one; and on a tree with no entry
at the version path `6` the factory proceeds with version "1.0" — major 1,
minor 0. -/
theorem version_components_and_default :
    (∀ s v, versionInit s = Except.ok v →
      pyIntOfChars ((splitDot s.toList).headD []) = Option.some v.major ∧
      (match (splitDot s.toList).tail with
       | [] => v.minor = 0
       | c2 :: _ => pyIntOfChars c2 = Option.some v.minor)) ∧
    (∀ ext info, ext.containsOid EXT_CERT_VERSION = false →
      createFromTrimmed ext info =
        createV1Cert { version_str := "1.0", segments := [1, 0],
                       major := 1, minor := 0 } ext info) := by
  constructor
  · intro s v hv
    obtain ⟨c, cs, hsplit⟩ :=
      List.exists_cons_of_ne_nil (splitDot_ne_nil s.toList)
    unfold versionInit at hv
    rw [hsplit] at hv
    cases h : mapExcept segToInt (c :: cs) with
    | error e => rw [h] at hv; exact absurd hv (by simp)
    | ok segs =>
      obtain ⟨b, bs', hb, hbs, hcons⟩ := mapExcept_cons_ok _ _ _ _ h
      subst hcons
      rw [h] at hv
      simp only [Except.ok.injEq] at hv
      have hvmajor : v.major = b := by rw [← hv]
      have hvminor : v.minor = bs'.headD 0 := by rw [← hv]
      have hmajor : pyIntOfChars c = Option.some b := by
        unfold segToInt at hb
        cases hc : pyIntOfChars c with
        | none => rw [hc] at hb; exact absurd hb (by simp)
        | some m =>
          rw [hc] at hb; simp only [Except.ok.injEq] at hb; rw [hb]
      refine ⟨?_, ?_⟩
      · rw [hsplit, List.headD_cons, hmajor, hvmajor]
      · rw [hsplit, List.tail_cons]
        cases cs with
        | nil =>
          show v.minor = 0
          have hrest : bs' = [] := by
            cases hb2 : bs' with
            | nil => rfl
            | cons r rs => rw [hb2] at hbs; simp [mapExcept] at hbs
          rw [hvminor, hrest]
          rfl
        | cons c2 cs' =>
          show pyIntOfChars c2 = Option.some v.minor
          obtain ⟨b2, bs2, hb2', hbs2, hcons2⟩ :=
            mapExcept_cons_ok _ _ _ _ hbs
          have hminor2 : pyIntOfChars c2 = Option.some b2 := by
            unfold segToInt at hb2'
            cases hc2 : pyIntOfChars c2 with
            | none => rw [hc2] at hb2'; exact absurd hb2' (by simp)
            | some m =>
              rw [hc2] at hb2'; simp only [Except.ok.injEq] at hb2'
              rw [hb2']
          rw [hminor2, hvminor, hcons2]
          simp
  · intro ext info hno
    unfold createFromTrimmed
    rw [hno]
    rfl

/-- Concrete instances of `version_components_and_default`: the string
`"3.2"` gives major 3, minor 2, and the empty tree (no version entry) is
built with version "1.0". -/
theorem version_components_and_default_witness :
    (pyIntOfChars ((splitDot "3.2".toList).headD []) =
      Option.some (Version.mk "3.2" [3, 2] 3 2).major ∧
     (match (splitDot "3.2".toList).tail with
      | [] => (Version.mk "3.2" [3, 2] 3 2).minor = 0
      | c2 :: _ =>
        pyIntOfChars c2 = Option.some (Version.mk "3.2" [3, 2] 3 2).minor)) ∧
    createFromTrimmed ⟨[]⟩ ⟨0, 0, 0, Option.none, []⟩ =
      createV1Cert { version_str := "1.0", segments := [1, 0],
                     major := 1, minor := 0 } ⟨[]⟩ ⟨0, 0, 0, Option.none, []⟩ :=
  ⟨version_components_and_default.1 "3.2" (Version.mk "3.2" [3, 2] 3 2) rfl,
   version_components_and_default.2 ⟨[]⟩ ⟨0, 0, 0, Option.none, []⟩ rfl⟩

/-- Claim C10: a `Content` built with a non-empty quantity or flex_quantity
string that is not a valid integer raises an uncaught `ValueError` — the
lenient swallow-to-None of the order quantity is not applied — while `None`
or an empty string yields `None`, and a valid integer string is converted. -/
theorem content_quantity_strict (s : String) (n : Int) :
    (∃ c, contentWithQuantity Option.none = Except.ok c ∧
      c.quantity = Option.none) ∧
    (∃ c, contentWithQuantity (Option.some "") = Except.ok c ∧
      c.quantity = Option.none) ∧
    (s.isEmpty = false → pyIntOfChars s.toList = Option.none →
      contentWithQuantity (Option.some s) =
        Except.error (PyError.valueError s)) ∧
    (s.isEmpty = false → pyIntOfChars s.toList = Option.some n →
      ∃ c, contentWithQuantity (Option.some s) = Except.ok c ∧
        c.quantity = Option.some n) ∧
    (∃ c, contentWithFlex Option.none = Except.ok c ∧
      c.flex_quantity = Option.none) ∧
    (∃ c, contentWithFlex (Option.some "") = Except.ok c ∧
      c.flex_quantity = Option.none) ∧
    (s.isEmpty = false → pyIntOfChars s.toList = Option.none →
      contentWithFlex (Option.some s) =
        Except.error (PyError.valueError s)) ∧
    (s.isEmpty = false → pyIntOfChars s.toList = Option.some n →
      ∃ c, contentWithFlex (Option.some s) = Except.ok c ∧
        c.flex_quantity = Option.some n) := by
  refine ⟨⟨_, rfl, rfl⟩, ⟨_, rfl, rfl⟩, fun he hp => ?_, fun he hp => ?_,
    ⟨_, rfl, rfl⟩, ⟨_, rfl, rfl⟩, fun he hp => ?_, fun he hp => ?_⟩ <;>
    (simp only [String.toList] at hp;
     simp [contentWithQuantity, contentWithFlex, contentInit, intIfTruthy,
       enabledValid, pyEq, he, hp])

/-- Concrete instances of `content_quantity_strict`: the non-numeric string
`"abc"` raises `ValueError`, the numeric string `"7"` converts to 7. -/
theorem content_quantity_strict_witness :
    (contentWithQuantity (Option.some "abc") =
      Except.error (PyError.valueError "abc")) ∧
    (∃ c, contentWithQuantity (Option.some "7") = Except.ok c ∧
      c.quantity = Option.some 7) ∧
    (contentWithFlex (Option.some "abc") =
      Except.error (PyError.valueError "abc")) ∧
    (∃ c, contentWithFlex (Option.some "7") = Except.ok c ∧
      c.flex_quantity = Option.some 7) :=
  ⟨(content_quantity_strict "abc" 0).2.2.1 rfl rfl,
   (content_quantity_strict "7" 7).2.2.2.1 rfl rfl,
   (content_quantity_strict "abc" 0).2.2.2.2.2.2.1 rfl rfl,
   (content_quantity_strict "7" 7).2.2.2.2.2.2.2 rfl rfl⟩

end Rhsm
